import Mathlib

/-
  Verification of the forgesteel room server (server/src/db.ts, server/src/index.ts,
  server/src/test/server-helpers.ts) against its specification.

  The durable store is modelled as total functions from string keys to optional
  rows, one field per SQLite table (game_data, hero_claims, room_state,
  client_names).  Database operations mirror the SQL statements of the db module
  as exposed to the route handlers (the surface in server-helpers.ts, which the
  server's index.ts calls); route handlers mirror the express handlers in
  index.ts.  The in-memory connected-client map is a list of `Client` records
  and `broadcastRecipients` mirrors the `broadcast` function's delivery
  condition (skip the excluded client id, deliver only to OPEN sockets).
-/

namespace Forgesteel

/-- A row of the `game_data` table: `data TEXT NOT NULL, version INTEGER`. -/
structure GameData where
  data : String
  version : Nat
deriving DecidableEq, Repr

/-- The durable store: one field per SQLite table, keyed by the table's
primary key column. -/
structure RoomDB where
  gameData : String → Option GameData
  heroClaims : String → Option String
  roomState : String → Option String
  clientNames : String → Option String

/-- A store with all tables empty. -/
def RoomDB.empty : RoomDB :=
  ⟨fun _ => none, fun _ => none, fun _ => none, fun _ => none⟩

/-- JavaScript truthiness of a `string | null | undefined` value:
`null`/`undefined` and the empty string are falsy. -/
def jsTruthy : Option String → Bool
  | none => false
  | some s => !s.isEmpty

/-- `database.getData`: `SELECT data, version FROM game_data WHERE key = ?`. -/
def RoomDB.getData (db : RoomDB) (key : String) : Option GameData :=
  db.gameData key

/-- `database.setData(key, data, expectedVersion?)`.
With `expectedVersion` it runs
`UPDATE game_data SET data = ?, version = version + 1 WHERE key = ? AND version = ? RETURNING version`
and returns `null` on a version mismatch (no row updated); without it it runs
`INSERT ... VALUES (?, ?, 1) ON CONFLICT(key) DO UPDATE SET data = excluded.data, version = version + 1 RETURNING version`. -/
def RoomDB.setData (db : RoomDB) (key data : String) (expectedVersion : Option Nat) :
    Option Nat × RoomDB :=
  match expectedVersion with
  | some ev =>
    match db.gameData key with
    | some g =>
      if g.version = ev then
        (some (g.version + 1),
          { db with gameData :=
              fun k => if k = key then some ⟨data, g.version + 1⟩ else db.gameData k })
      else
        (none, db)
    | none => (none, db)
  | none =>
    match db.gameData key with
    | some g =>
      (some (g.version + 1),
        { db with gameData :=
            fun k => if k = key then some ⟨data, g.version + 1⟩ else db.gameData k })
    | none =>
      (some 1,
        { db with gameData :=
            fun k => if k = key then some ⟨data, 1⟩ else db.gameData k })

/-- `database.getClaim`: `SELECT client_id FROM hero_claims WHERE hero_id = ?`. -/
def RoomDB.getClaim (db : RoomDB) (heroId : String) : Option String :=
  db.heroClaims heroId

/-- `database.setClaim`: unconditional upsert into `hero_claims`. -/
def RoomDB.setClaim (db : RoomDB) (heroId clientId : String) : RoomDB :=
  { db with heroClaims :=
      fun h => if h = heroId then some clientId else db.heroClaims h }

/-- `database.deleteClaim(heroId, clientId?)`: with a (truthy) `clientId` it runs
`DELETE FROM hero_claims WHERE hero_id = ? AND client_id = ?`; without one it
force-deletes the row.  Returns whether a row was deleted (`changes > 0`). -/
def RoomDB.deleteClaim (db : RoomDB) (heroId : String) (clientId : Option String) :
    Bool × RoomDB :=
  if jsTruthy clientId then
    if db.heroClaims heroId = clientId then
      (true, { db with heroClaims :=
                 fun h => if h = heroId then none else db.heroClaims h })
    else
      (false, db)
  else
    match db.heroClaims heroId with
    | some _ =>
      (true, { db with heroClaims :=
                 fun h => if h = heroId then none else db.heroClaims h })
    | none => (false, db)

/-- `database.getRoomState`: `SELECT value FROM room_state WHERE key = ?`. -/
def RoomDB.getRoomState (db : RoomDB) (key : String) : Option String :=
  db.roomState key

/-- `database.setRoomState`: unconditional upsert into `room_state`. -/
def RoomDB.setRoomState (db : RoomDB) (key value : String) : RoomDB :=
  { db with roomState :=
      fun k => if k = key then some value else db.roomState k }

/-- `database.getDmClientId`: the `dm_client_id` room-state singleton. -/
def RoomDB.getDmClientId (db : RoomDB) : Option String :=
  db.getRoomState "dm_client_id"

/-- `database.isDmDiscordUser`: the `dm_is_discord_user` singleton compared
with the string `'true'`. -/
def RoomDB.isDmDiscordUser (db : RoomDB) : Bool :=
  db.getRoomState "dm_is_discord_user" == some "true"

/-- `database.setDmClientId(clientId, isDiscordUser)`: upserts both the
`dm_client_id` and `dm_is_discord_user` singletons. -/
def RoomDB.setDmClientId (db : RoomDB) (clientId : String) (isDiscordUser : Bool) :
    RoomDB :=
  (db.setRoomState "dm_client_id" clientId).setRoomState "dm_is_discord_user"
    (if isDiscordUser then "true" else "false")

/-- `database.clearDmClientId`: deletes both director singletons. -/
def RoomDB.clearDmClientId (db : RoomDB) : RoomDB :=
  { db with roomState :=
      fun k =>
        if k = "dm_client_id" ∨ k = "dm_is_discord_user" then none
        else db.roomState k }

/-- `database.resetRoom`: `DELETE FROM hero_claims; DELETE FROM room_state;
DELETE FROM client_names` — the `game_data` table is untouched. -/
def RoomDB.resetRoom (db : RoomDB) : RoomDB :=
  { db with
      heroClaims := fun _ => none
      roomState := fun _ => none
      clientNames := fun _ => none }

/-- `database.getClientName`. -/
def RoomDB.getClientName (db : RoomDB) (clientId : String) : Option String :=
  db.clientNames clientId

/-- `database.setClientName`: unconditional upsert into `client_names`. -/
def RoomDB.setClientName (db : RoomDB) (clientId name : String) : RoomDB :=
  { db with clientNames :=
      fun c => if c = clientId then some name else db.clientNames c }

/-- In-memory role of a connected client. -/
inductive Role
  | dm
  | player
deriving DecidableEq, Repr

/-- An entry of the in-memory `clients` map: id, role, and whether the
WebSocket is in the OPEN ready state. -/
structure Client where
  id : String
  role : Role
  isOpen : Bool
deriving DecidableEq, Repr

/-- The ids that `broadcast(message, excludeClientId)` delivers to: every
connected client whose id differs from `excludeClientId` and whose socket is
OPEN. -/
def broadcastRecipients (clients : List Client) (excludeClientId : Option String) :
    List String :=
  (clients.filter fun c => (some c.id != excludeClientId) && c.isOpen).map Client.id

/-- Response of `PUT /data/:key`: `{version}` on success, or a 409 with
`{error, currentVersion, data}` on a version conflict (`currentVersion` is
absent and `data` is `null` when no document is stored under the key). -/
inductive PutDataResponse
  | ok (version : Nat)
  | conflict (currentVersion : Option Nat) (data : Option String)
deriving DecidableEq, Repr

/-- Result of the `PUT /data/:key` handler: the HTTP response, the store after
the handler ran, and the ids the `data_changed` notification was sent to. -/
structure PutDataResult where
  response : PutDataResponse
  db : RoomDB
  notified : List String

/-- The `PUT /data/:key` handler: calls `database.setData`; on `null` it
answers 409 with the current row's version and payload; on success it
broadcasts `data_changed{key, version}` excluding the `x-client-id` header
value (the only identity this handler consults) and answers `{version}`. -/
def putData (db : RoomDB) (clients : List Client) (key data : String)
    (expectedVersion : Option Nat) (xClientId : Option String) : PutDataResult :=
  match db.setData key data expectedVersion with
  | (none, db1) =>
    let current := db1.getData key
    { response := .conflict (current.map GameData.version) (current.map GameData.data)
      db := db1
      notified := [] }
  | (some v, db1) =>
    { response := .ok v
      db := db1
      notified := broadcastRecipients clients xClientId }

/-- Response of `POST /heroes/:heroId/claim`: 400 without an `x-client-id`
header, 409 `{error, claimedBy}` when the hero is claimed by someone else and
the requester is not the DM, `{success:true}` otherwise. -/
inductive ClaimResponse
  | badRequest
  | conflict (claimedBy : String)
  | ok
deriving DecidableEq, Repr

/-- The `POST /heroes/:heroId/claim` handler. -/
def claimHero (db : RoomDB) (heroId : String) (xClientId : Option String) :
    ClaimResponse × RoomDB :=
  match xClientId with
  | none => (.badRequest, db)
  | some clientId =>
    if clientId.isEmpty then (.badRequest, db)
    else
      let isDm := some clientId == db.getDmClientId
      match db.getClaim heroId with
      | some existingClaim =>
        if !existingClaim.isEmpty && (existingClaim != clientId) && !isDm then
          (.conflict existingClaim, db)
        else
          (.ok, db.setClaim heroId clientId)
      | none => (.ok, db.setClaim heroId clientId)

/-- Response of `DELETE /heroes/:heroId/claim`: 400 without an `x-client-id`
header, otherwise `{success: deleted}`. -/
inductive ReleaseResponse
  | badRequest
  | ok (success : Bool)
deriving DecidableEq, Repr

/-- The `DELETE /heroes/:heroId/claim` handler: the DM force-deletes any
claim, other clients delete only a claim they own. -/
def releaseHero (db : RoomDB) (heroId : String) (xClientId : Option String) :
    ReleaseResponse × RoomDB :=
  match xClientId with
  | none => (.badRequest, db)
  | some clientId =>
    if clientId.isEmpty then (.badRequest, db)
    else
      let isDm := some clientId == db.getDmClientId
      let r :=
        if isDm then db.deleteClaim heroId none
        else db.deleteClaim heroId (some clientId)
      (.ok r.1, r.2)

/-- Response of `POST /reset`: 403 unless the requester is the DM. -/
inductive ResetResponse
  | forbidden
  | ok
deriving DecidableEq, Repr

/-- The `POST /reset` handler: `if (clientId !== dmClientId) 403`, else
`database.resetRoom()`.  A missing header never equals the stored id (and a
missing stored id never equals a header value), mirroring `!==` on
`string | undefined` versus `string | null`. -/
def resetRoomHandler (db : RoomDB) (xClientId : Option String) :
    ResetResponse × RoomDB :=
  let allowed :=
    match xClientId, db.getDmClientId with
    | some c, some d => c == d
    | _, _ => false
  if allowed then (.ok, db.resetRoom) else (.forbidden, db)

/-- Response of `POST /director/claim` (behind `requireAuth`): 403 when the
role is held by a Discord user, `{success:true, role:'dm'}` otherwise. -/
inductive DirectorClaimResponse
  | forbidden
  | ok
deriving DecidableEq, Repr

/-- Result of the `POST /director/claim` handler: response, store, and the
in-memory client map after the handler ran. -/
structure DirectorClaimResult where
  response : DirectorClaimResponse
  db : RoomDB
  clients : List Client

/-- The `POST /director/claim` handler, for an authenticated user with id
`userId`: rejected with 403 if a DM is set and is a Discord user; otherwise
sets the DM singletons to `(userId, true)` and flips the connected client
whose id is `userId` (if any) to role `dm`.  No other connected client's role
is touched. -/
def directorClaim (db : RoomDB) (clients : List Client) (userId : String) :
    DirectorClaimResult :=
  if jsTruthy db.getDmClientId && db.isDmDiscordUser then
    { response := .forbidden, db := db, clients := clients }
  else
    { response := .ok
      db := db.setDmClientId userId true
      clients := clients.map fun c =>
        if c.id == userId then { c with role := Role.dm } else c }

/-- Iterated unconditional writes (`expectedVersion` omitted) of a list of
payloads to one key, left to right. -/
def RoomDB.writeAll (db : RoomDB) (key : String) : List String → RoomDB
  | [] => db
  | d :: ds => ((db.setData key d none).2).writeAll key ds

/-! ### Helper lemmas -/

/-- One unconditional write stores the new payload at the key, with version
one more than the previous stored version (0 when absent). -/
theorem getData_setData_uncond (db : RoomDB) (key d : String) :
    ((db.setData key d none).2).getData key =
      some ⟨d, ((db.getData key).map GameData.version).getD 0 + 1⟩ := by
  unfold RoomDB.setData RoomDB.getData
  cases h : db.gameData key <;> simp [h]

/-- After a run of unconditional writes, the stored version has grown by the
number of writes. -/
theorem writeAll_version (key : String) (ds : List String) :
    ∀ (db : RoomDB) (v : Nat), ((db.getData key).map GameData.version) = some v →
      (((db.writeAll key ds).getData key).map GameData.version) = some (v + ds.length) := by
  induction ds with
  | nil =>
    intro db v h
    simpa [RoomDB.writeAll] using h
  | cons d ds ih =>
    intro db v h
    have h1 := getData_setData_uncond db key d
    rw [show ((db.getData key).map GameData.version).getD 0 = v by rw [h]; rfl] at h1
    have h2 := ih ((db.setData key d none).2) (v + 1) (by rw [h1]; rfl)
    calc (((db.writeAll key (d :: ds)).getData key).map GameData.version)
        = ((((db.setData key d none).2).writeAll key ds).getData key).map GameData.version := by
          rfl
      _ = some (v + 1 + ds.length) := h2
      _ = some (v + (ds.length + 1)) := by rw [Nat.add_right_comm, Nat.add_assoc]
      _ = some (v + (d :: ds).length) := by rfl

/-- `claimHero` touches only the `hero_claims` table. -/
theorem claimHero_roomState (db : RoomDB) (heroId : String) (xc : Option String) :
    ((claimHero db heroId xc).2).roomState = db.roomState := by
  unfold claimHero
  cases xc with
  | none => rfl
  | some c =>
    simp only []
    split
    · rfl
    · split
      · split
        · rfl
        · rfl
      · rfl

/-- Membership in the broadcast recipient list: an open connected client
receives the event exactly when its id differs from the excluded id. -/
theorem mem_broadcastRecipients (clients : List Client) (xc : Option String)
    (c : Client) (hc : c ∈ clients) (hopen : c.isOpen = true) :
    c.id ∈ broadcastRecipients clients xc ↔ some c.id ≠ xc := by
  unfold broadcastRecipients
  constructor
  · intro hmem
    obtain ⟨c2, hc2, hid⟩ := List.mem_map.mp hmem
    obtain ⟨-, hcond⟩ := List.mem_filter.mp hc2
    rw [Bool.and_eq_true] at hcond
    obtain ⟨hne, -⟩ := hcond
    rw [hid] at hne
    exact bne_iff_ne.mp hne
  · intro hne
    refine List.mem_map.mpr ⟨c, List.mem_filter.mpr ⟨hc, ?_⟩, rfl⟩
    rw [Bool.and_eq_true]
    exact ⟨bne_iff_ne.mpr hne, hopen⟩

/-- On a successful write, `putData` hands the `data_changed` event to
`broadcast` with the `x-client-id` header value as the excluded id. -/
theorem putData_notified_ok (db : RoomDB) (clients : List Client) (key d : String)
    (ev : Option Nat) (xc : Option String)
    (hok : ∃ v, (putData db clients key d ev xc).response = .ok v) :
    (putData db clients key d ev xc).notified = broadcastRecipients clients xc := by
  obtain ⟨v0, hresp⟩ := hok
  unfold putData at hresp ⊢
  rcases hsd : db.setData key d ev with ⟨o, db1⟩
  cases o with
  | none =>
    rw [hsd] at hresp
    simp at hresp
  | some v => rfl

/-! ### Claim theorems -/

/-- C1: for a key whose stored document has version `v`, a conditional write
(`expectedVersion` supplied) succeeds — incrementing the version to `v + 1`
and replacing the payload — if and only if `expectedVersion = v`; on failure
the stored row is unchanged and the 409 response carries the current stored
payload and version. -/
theorem conditional_write_succeeds_iff_version_matches (db : RoomDB)
    (clients : List Client) (key d : String) (xc : Option String) (ev : Nat)
    (g : GameData) (hg : db.getData key = some g) :
    ((putData db clients key d (some ev) xc).response = .ok (g.version + 1)
        ↔ ev = g.version)
    ∧ (ev = g.version →
        (putData db clients key d (some ev) xc).db.getData key = some ⟨d, g.version + 1⟩)
    ∧ (ev ≠ g.version →
        (putData db clients key d (some ev) xc).response
            = .conflict (some g.version) (some g.data)
        ∧ (putData db clients key d (some ev) xc).db.getData key = some g) := by
  have hg' : db.gameData key = some g := hg
  by_cases hev : ev = g.version
  · refine ⟨?_, fun _ => ?_, fun hne => absurd hev hne⟩
    · simp [putData, RoomDB.setData, hg', hev]
    · simp [putData, RoomDB.setData, RoomDB.getData, hg', hev]
  · have hne : ¬(g.version = ev) := fun h => hev h.symm
    refine ⟨?_, fun h => absurd h hev, fun _ => ⟨?_, ?_⟩⟩
    · simp [putData, RoomDB.setData, RoomDB.getData, hg', hne, hev]
    · simp [putData, RoomDB.setData, RoomDB.getData, hg', hne]
    · simp [putData, RoomDB.setData, RoomDB.getData, hg', hne]

/-- Store holding one document, used to witness C1. -/
def dbNoteV2 : RoomDB :=
  { RoomDB.empty with gameData := fun k => if k = "note" then some ⟨"p", 2⟩ else none }

/-- Witness for C1: a write to a version-2 document with `expectedVersion = 2`
stores the new payload at version 3. -/
theorem conditional_write_succeeds_iff_version_matches_witness :
    (putData dbNoteV2 [] "note" "q" (some 2) none).db.getData "note" = some ⟨"q", 3⟩ :=
  (conditional_write_succeeds_iff_version_matches dbNoteV2 [] "note" "q" none 2
    ⟨"p", 2⟩ rfl).2.1 rfl

/-- C2: starting from a key with no stored document, a nonempty sequence of
`N` unconditional writes leaves the stored version at exactly `N`; the first
such write creates the document at version 1, and an unconditional write on
any stored document increments its version by exactly 1. -/
theorem unconditional_write_sequence_yields_length_version (db : RoomDB)
    (key : String) (ds : List String) (h0 : db.getData key = none) (hne : ds ≠ []) :
    (((db.writeAll key ds).getData key).map GameData.version) = some ds.length
    ∧ (∀ d, ((db.setData key d none).2).getData key = some ⟨d, 1⟩)
    ∧ ∀ (db2 : RoomDB) (g : GameData) (d : String), db2.getData key = some g →
        (((db2.setData key d none).2).getData key).map GameData.version
            = some (g.version + 1) := by
  refine ⟨?_, ?_, ?_⟩
  · cases ds with
    | nil => exact absurd rfl hne
    | cons d ds =>
      have h1 := getData_setData_uncond db key d
      rw [h0] at h1
      simp only [Option.map_none', Option.getD_none, Nat.zero_add] at h1
      have h2 := writeAll_version key ds ((db.setData key d none).2) 1 (by rw [h1]; rfl)
      calc (((db.writeAll key (d :: ds)).getData key).map GameData.version)
          = ((((db.setData key d none).2).writeAll key ds).getData key).map
              GameData.version := by rfl
        _ = some (1 + ds.length) := h2
        _ = some ((d :: ds).length) := by rw [Nat.add_comm]; rfl
  · intro d
    have h1 := getData_setData_uncond db key d
    rw [h0] at h1
    simpa using h1
  · intro db2 g d hg
    have h1 := getData_setData_uncond db2 key d
    rw [hg] at h1
    rw [h1]
    rfl

/-- Witness for C2: three unconditional writes to a fresh key leave the
stored version at 3. -/
theorem unconditional_write_sequence_yields_length_version_witness :
    (((RoomDB.empty.writeAll "k" ["a", "b", "c"]).getData "k").map GameData.version)
      = some 3 :=
  (unconditional_write_sequence_yields_length_version RoomDB.empty "k"
    ["a", "b", "c"] rfl (List.cons_ne_nil _ _)).1

/-- C10: a conditional write to a key with no stored document fails with a
version conflict for every supplied `expectedVersion` (including 0), creates
no document, and the conflict response carries `data: null` and no
`currentVersion` value. -/
theorem conditional_write_absent_key_conflict_null (db : RoomDB)
    (clients : List Client) (key d : String) (xc : Option String) (ev : Nat)
    (h : db.getData key = none) :
    (putData db clients key d (some ev) xc).response = .conflict none none
    ∧ (putData db clients key d (some ev) xc).db.getData key = none := by
  have h' : db.gameData key = none := h
  constructor <;> simp [putData, RoomDB.setData, RoomDB.getData, h']

/-- Witness for C10: a conditional write with `expectedVersion = 0` to an
empty store answers a conflict with no current version and null payload, and
stores nothing. -/
theorem conditional_write_absent_key_conflict_null_witness :
    (putData RoomDB.empty [] "note" "q" (some 0) none).response = .conflict none none
    ∧ (putData RoomDB.empty [] "note" "q" (some 0) none).db.getData "note" = none :=
  conditional_write_absent_key_conflict_null RoomDB.empty [] "note" "q" none 0 rfl

/-- C3: after a successful `claimHero(r, A)`, a `claimHero(r, B)` with
`B ≠ A`, `B` nonempty and `B` not the DM answers 409 reporting `A` as the
current owner and leaves the stored claim at `A`. -/
theorem claim_conflict_preserves_owner (db : RoomDB) (r A B : String)
    (hA : (claimHero db r (some A)).1 = .ok)
    (hAB : B ≠ A) (hB : ¬B.isEmpty) (hBdm : db.getDmClientId ≠ some B) :
    (claimHero (claimHero db r (some A)).2 r (some B)).1 = .conflict A
    ∧ (claimHero (claimHero db r (some A)).2 r (some B)).2.getClaim r = some A := by
  have hAne : A.isEmpty = false := by
    cases hAi : A.isEmpty with
    | false => rfl
    | true => simp [claimHero, hAi] at hA
  have hBne : B.isEmpty = false := by
    cases hBi : B.isEmpty with
    | false => rfl
    | true => exact absurd hBi hB
  set db1 := (claimHero db r (some A)).2 with hdb1def
  have hdb1 : db1.getClaim r = some A := by
    rw [hdb1def]
    unfold claimHero
    simp only [hAne, Bool.false_eq_true, if_false]
    cases hc : db.getClaim r with
    | none => simp [RoomDB.setClaim, RoomDB.getClaim]
    | some e =>
      by_cases hcond :
          (!e.isEmpty && (e != A) && !(some A == db.getDmClientId)) = true
      · exfalso
        unfold claimHero at hA
        simp only [hAne, Bool.false_eq_true, if_false, hc, hcond, if_true] at hA
        exact ClaimResponse.noConfusion hA
      · simp [hcond, RoomDB.setClaim, RoomDB.getClaim]
  have hrs : db1.getDmClientId = db.getDmClientId := by
    rw [hdb1def]
    unfold RoomDB.getDmClientId RoomDB.getRoomState
    rw [claimHero_roomState]
  have hA_B : (A != B) = true := bne_iff_ne.mpr fun h => hAB h.symm
  have hdm : (some B == db.getDmClientId) = false :=
    beq_eq_false_iff_ne.mpr fun h => hBdm h.symm
  have hstep : claimHero db1 r (some B) = (.conflict A, db1) := by
    unfold claimHero
    simp only [hBne, Bool.false_eq_true, if_false, hdb1, hrs, hdm, hAne, hA_B,
      Bool.not_false, Bool.and_true, Bool.true_and, Bool.and_self, if_true]
  exact ⟨by rw [hstep], by rw [hstep]; exact hdb1⟩

/-- Witness for C3: on an empty store, after alice claims hero-1, bob's claim
attempt answers a conflict reporting alice. -/
theorem claim_conflict_preserves_owner_witness :
    (claimHero (claimHero RoomDB.empty "hero-1" (some "alice")).2 "hero-1"
        (some "bob")).1 = .conflict "alice" :=
  (claim_conflict_preserves_owner RoomDB.empty "hero-1" "alice" "bob" rfl
    (by decide) (by decide) (by decide)).1

/-- C6: a release of a claimed resource by a nonempty requester who is
neither the owner nor the DM answers `{success:false}` and leaves the claim
table unchanged; a release by the DM deletes the claim regardless of its
owner and answers `{success:true}`. -/
theorem release_by_non_owner_noop_and_dm_force_delete (db : RoomDB)
    (r A B C : String) (hOwner : db.getClaim r = some A)
    (hBA : B ≠ A) (hB : ¬B.isEmpty) (hBdm : db.getDmClientId ≠ some B)
    (hCdm : db.getDmClientId = some C) (hC : ¬C.isEmpty) :
    (releaseHero db r (some B)).1 = .ok false
    ∧ (∀ h, (releaseHero db r (some B)).2.heroClaims h = db.heroClaims h)
    ∧ (releaseHero db r (some C)).1 = .ok true
    ∧ (releaseHero db r (some C)).2.getClaim r = none := by
  have hBne : B.isEmpty = false := by
    cases hBi : B.isEmpty with
    | false => rfl
    | true => exact absurd hBi hB
  have hCne : C.isEmpty = false := by
    cases hCi : C.isEmpty with
    | false => rfl
    | true => exact absurd hCi hC
  have hdmB : (some B == db.getDmClientId) = false :=
    beq_eq_false_iff_ne.mpr fun h => hBdm h.symm
  have hdmC : (some C == db.getDmClientId) = true := by
    rw [hCdm]
    exact beq_self_eq_true _
  have hOwner' : db.heroClaims r = some A := hOwner
  have hAB' : A ≠ B := fun h => hBA h.symm
  refine ⟨?_, ?_, ?_, ?_⟩ <;>
    simp [releaseHero, RoomDB.deleteClaim, jsTruthy, RoomDB.getClaim, hBne, hCne,
      hdmB, hdmC, hOwner', hAB']

/-- Store with hero-1 claimed by alice and carol as DM, used to witness C6. -/
def dbOwnedClaim : RoomDB :=
  { RoomDB.empty with
      heroClaims := fun h => if h = "hero-1" then some "alice" else none
      roomState := fun k => if k = "dm_client_id" then some "carol" else none }

/-- Witness for C6: the DM's release of alice's claim reports success. -/
theorem release_by_non_owner_noop_and_dm_force_delete_witness :
    (releaseHero dbOwnedClaim "hero-1" (some "carol")).1 = .ok true :=
  (release_by_non_owner_noop_and_dm_force_delete dbOwnedClaim "hero-1" "alice"
    "bob" "carol" rfl (by decide) (by decide) (by decide) rfl (by decide)).2.2.1

/-- C7: a reset requested by the current DM clears every claim, every
room-state row (so the authority singleton and its verified flag) and every
stored client name while leaving every document row untouched; any other
request answers 403 and changes nothing. -/
theorem reset_clears_claims_roomstate_names_keeps_documents (db : RoomDB)
    (xc : Option String) :
    ((∃ c, xc = some c ∧ db.getDmClientId = some c) →
        (resetRoomHandler db xc).1 = .ok
        ∧ (∀ r, (resetRoomHandler db xc).2.heroClaims r = none)
        ∧ (∀ k, (resetRoomHandler db xc).2.roomState k = none)
        ∧ (∀ n, (resetRoomHandler db xc).2.clientNames n = none)
        ∧ (∀ k, (resetRoomHandler db xc).2.gameData k = db.gameData k))
    ∧ ((¬∃ c, xc = some c ∧ db.getDmClientId = some c) →
        (resetRoomHandler db xc).1 = .forbidden
        ∧ (resetRoomHandler db xc).2 = db) := by
  constructor
  · rintro ⟨c, hxc, hdm⟩
    subst hxc
    simp [resetRoomHandler, hdm, RoomDB.resetRoom]
  · intro hne
    cases hxc : xc with
    | none => simp [resetRoomHandler]
    | some c =>
      cases hdm : db.getDmClientId with
      | none => simp [resetRoomHandler, hdm]
      | some d =>
        have hcd : c ≠ d := fun h => hne ⟨c, hxc, by rw [hdm, h]⟩
        simp [resetRoomHandler, hdm, hcd]

/-- Store with dan as DM, used to witness C7. -/
def dbDmDan : RoomDB :=
  { RoomDB.empty with
      roomState := fun k => if k = "dm_client_id" then some "dan" else none }

/-- Witness for C7: dan's own reset request is accepted. -/
theorem reset_clears_claims_roomstate_names_keeps_documents_witness :
    (resetRoomHandler dbDmDan (some "dan")).1 = .ok :=
  ((reset_clears_claims_roomstate_names_keeps_documents dbDmDan (some "dan")).1
    ⟨"dan", rfl, rfl⟩).1

/-- Store with carol as DM and no claims, used for C9. -/
def dbDmCarol : RoomDB :=
  { RoomDB.empty with
      roomState := fun k => if k = "dm_client_id" then some "carol" else none }

/-- C9 counterexample: against a resource with no existing claim, the DM's
claim request reports success, but the DM's release request does **not**
report success — the handler answers `{success:false}` because no row was
deleted. -/
theorem authority_release_unclaimed_reports_false_cex :
    (claimHero dbDmCarol "hero-1" (some "carol")).1 = .ok
    ∧ (releaseHero dbDmCarol "hero-1" (some "carol")).1 ≠ .ok true := by
  exact ⟨rfl, by decide⟩

/-- C9 as amended: against a resource with no existing claim, the DM's claim
request reports success; the DM's release request is not an error but
answers `{success:false}` and leaves the claim table unchanged (so still no
claim on the resource). -/
theorem authority_claim_and_release_on_unclaimed (db : RoomDB) (r C : String)
    (hno : db.getClaim r = none) (hdm : db.getDmClientId = some C)
    (hC : ¬C.isEmpty) :
    (claimHero db r (some C)).1 = .ok
    ∧ (releaseHero db r (some C)).1 = .ok false
    ∧ ∀ h, (releaseHero db r (some C)).2.heroClaims h = db.heroClaims h := by
  have hCne : C.isEmpty = false := by
    cases hCi : C.isEmpty with
    | false => rfl
    | true => exact absurd hCi hC
  have hdmC : (some C == db.getDmClientId) = true := by
    rw [hdm]
    exact beq_self_eq_true _
  have hno' : db.heroClaims r = none := hno
  refine ⟨?_, ?_, ?_⟩ <;>
    simp [claimHero, releaseHero, RoomDB.deleteClaim, jsTruthy, RoomDB.getClaim,
      hCne, hdmC, hno']

/-- Witness for the amended C9 at a concrete store. -/
theorem authority_claim_and_release_on_unclaimed_witness :
    (releaseHero dbDmCarol "hero-2" (some "carol")).1 = .ok false :=
  (authority_claim_and_release_on_unclaimed dbDmCarol "hero-2" "carol" rfl rfl
    (by decide)).2.1

/-- Store with A as DM, not a Discord user, used for C4. -/
def dbDmAUnverified : RoomDB :=
  { RoomDB.empty with
      roomState := fun k =>
        if k = "dm_client_id" then some "A"
        else if k = "dm_is_discord_user" then some "false" else none }

/-- Connected-client map with A (role dm) and B (role player), both open. -/
def clientsADmBPlayer : List Client :=
  [⟨"A", Role.dm, true⟩, ⟨"B", Role.player, true⟩]

/-- C4 counterexample: with unverified A holding the role and both A and B
connected, B's authority claim succeeds, but the handler flips only B's
in-memory role to dm — the previously connected old authority A keeps role
dm, it is not flipped to player as the claim states. -/
theorem director_claim_old_authority_role_unchanged_cex :
    (directorClaim dbDmAUnverified clientsADmBPlayer "B").response = .ok
    ∧ (directorClaim dbDmAUnverified clientsADmBPlayer "B").clients
        = [⟨"A", Role.dm, true⟩, ⟨"B", Role.dm, true⟩]
    ∧ ((directorClaim dbDmAUnverified clientsADmBPlayer "B").clients.find?
          fun c => c.id == "A").map Client.role ≠ some Role.player :=
  ⟨rfl, rfl, by decide⟩

/-- C4 as amended: when the authority is held by an unverified identity and
verified B claims it, the claim succeeds, B becomes the (verified) authority
and B's connected role becomes dm; the in-memory entry of every other
connected identity — in particular the previously connected old authority —
is left unchanged (its role is not flipped to player). -/
theorem director_claim_updates_only_claimant_role (db : RoomDB)
    (clients : List Client) (A B : String) (c : Client)
    (hheld : db.getDmClientId = some A) (hunv : db.isDmDiscordUser = false)
    (hc : c ∈ clients) :
    (directorClaim db clients B).response = .ok
    ∧ (directorClaim db clients B).db.getDmClientId = some B
    ∧ (directorClaim db clients B).db.isDmDiscordUser = true
    ∧ (c.id = B →
        { c with role := Role.dm } ∈ (directorClaim db clients B).clients)
    ∧ (c.id ≠ B → c ∈ (directorClaim db clients B).clients) := by
  have hcond : (jsTruthy db.getDmClientId && db.isDmDiscordUser) = false := by
    rw [hunv]
    exact Bool.and_false _
  have hdc : directorClaim db clients B =
      ⟨.ok, db.setDmClientId B true,
        clients.map fun x => if x.id == B then { x with role := Role.dm } else x⟩ := by
    unfold directorClaim
    rw [hcond]
    rfl
  refine ⟨?_, ?_, ?_, ?_, ?_⟩
  · rw [hdc]
  · rw [hdc]
    rfl
  · rw [hdc]
    rfl
  · intro hid
    rw [hdc]
    have hbeq : (c.id == B) = true := by
      rw [hid]
      exact beq_self_eq_true _
    simpa [hbeq] using
      List.mem_map_of_mem (fun x => if x.id == B then { x with role := Role.dm } else x) hc
  · intro hid
    rw [hdc]
    have hbeq : (c.id == B) = false := beq_eq_false_iff_ne.mpr hid
    simpa [hbeq] using
      List.mem_map_of_mem (fun x => if x.id == B then { x with role := Role.dm } else x) hc

/-- Witness for the amended C4: the old authority's connected entry survives
the handoff unchanged, still carrying role dm. -/
theorem director_claim_updates_only_claimant_role_witness :
    (⟨"A", Role.dm, true⟩ : Client)
      ∈ (directorClaim dbDmAUnverified clientsADmBPlayer "B").clients :=
  (director_claim_updates_only_claimant_role dbDmAUnverified clientsADmBPlayer
    "A" "B" ⟨"A", Role.dm, true⟩ rfl rfl (by decide)).2.2.2.2 (by decide)

/-- Store whose DM is B, a Discord user, used for C5. -/
def dbDmBDiscord : RoomDB :=
  { RoomDB.empty with
      roomState := fun k =>
        if k = "dm_client_id" then some "B"
        else if k = "dm_is_discord_user" then some "true" else none }

/-- C5 counterexample: the authority is held by B, a verified (Discord)
identity, and B itself re-claims — not "another" verified identity — yet the
handler answers 403, because it rejects whenever a Discord user holds the
role without comparing the holder to the requester. -/
theorem director_claim_by_current_holder_forbidden_cex :
    dbDmBDiscord.getDmClientId = some "B"
    ∧ dbDmBDiscord.isDmDiscordUser = true
    ∧ (directorClaim dbDmBDiscord [] "B").response = .forbidden :=
  ⟨rfl, rfl, rfl⟩

/-- C5 as amended: a claim-authority request by a verified identity fails
with 403 if and only if the authority is currently held (a truthy id is
stored) by a verified (Discord) identity — including the case where the
holder is the requester themself; claims while the role is vacant or held by
an unverified identity never answer 403. -/
theorem director_claim_forbidden_iff_discord_holder (db : RoomDB)
    (clients : List Client) (u : String) :
    (directorClaim db clients u).response = .forbidden
      ↔ (jsTruthy db.getDmClientId = true ∧ db.isDmDiscordUser = true) := by
  by_cases h : (jsTruthy db.getDmClientId && db.isDmDiscordUser) = true
  · constructor
    · intro _
      rw [← Bool.and_eq_true]
      exact h
    · intro _
      unfold directorClaim
      rw [if_pos h]
  · constructor
    · intro hresp
      exfalso
      unfold directorClaim at hresp
      rw [if_neg h] at hresp
      exact DirectorClaimResponse.noConfusion hresp
    · intro hand
      exact absurd (Bool.and_eq_true _ _ ▸ hand) h

/-- Connected-client map whose writer B is connected via a verified bearer
session (so its HTTP writes carry no `x-client-id` header), alongside open
client A. -/
def clientsBWriterADm : List Client :=
  [⟨"B", Role.player, true⟩, ⟨"A", Role.dm, true⟩]

/-- C8 counterexample: a successful write by the connected client B whose
identity was resolved from a bearer credential (the client library then sends
no `x-client-id` header, and the handler reads no other identity source)
delivers the `data_changed` notification to B's own open channel. -/
theorem data_changed_sent_to_bearer_writer_cex :
    (putData RoomDB.empty clientsBWriterADm "note" "x" none none).response = .ok 1
    ∧ "B" ∈ (putData RoomDB.empty clientsBWriterADm "note" "x" none none).notified :=
  ⟨rfl, by decide⟩

/-- C8 as amended: on a successful write, the `data_changed{key, version}`
notification is delivered to exactly the open connected channels whose id
differs from the request's `x-client-id` header value — the only identity the
handler consults for exclusion.  A writer that supplies its channel id in
`x-client-id` is excluded; a writer identified only by a bearer credential
(no `x-client-id` header) receives the notification on its own channel. -/
theorem data_changed_recipient_iff_header_differs (db : RoomDB)
    (clients : List Client) (key d : String) (ev : Option Nat)
    (xc : Option String) (c : Client)
    (hok : ∃ v, (putData db clients key d ev xc).response = .ok v)
    (hc : c ∈ clients) (hopen : c.isOpen = true) :
    c.id ∈ (putData db clients key d ev xc).notified ↔ some c.id ≠ xc := by
  rw [putData_notified_ok db clients key d ev xc hok]
  exact mem_broadcastRecipients clients xc c hc hopen

/-- Witness for the amended C8: when the writer B does send `x-client-id: B`,
the other open channel A still receives the notification. -/
theorem data_changed_recipient_iff_header_differs_witness :
    ("A" : String)
      ∈ (putData RoomDB.empty clientsBWriterADm "note" "x" none (some "B")).notified :=
  (data_changed_recipient_iff_header_differs RoomDB.empty clientsBWriterADm
    "note" "x" none (some "B") ⟨"A", Role.dm, true⟩ ⟨1, rfl⟩ (by decide) rfl).mpr
    (by decide)

end Forgesteel
